import Mathlib

/-!
Verification of the wradlib RADOLAN composite decoder specification.

The RADOLAN decoder module (`wradlib/io/radolan.py`) is exercised by the
repository's test-suite (`wradlib/tests/test_io.py`) but its implementation
file is not part of the source tree given here; the definitions below are
therefore modelled from the specification (spec.md §4.1–§4.6), with every
detail the spec leaves open pinned down by the golden values asserted in the
repository's own tests.  The utility functions (`despeckle`,
`import_optional`, `OptionalModuleStub`) are translated directly from
`wradlib/util.py`.

Strings are processed as `List Char`; byte streams as `List Nat` (each
element < 256); Python `float` scale factors are exact powers of ten and are
represented as `ℚ`; Python `datetime` values as a plain record.
-/

/-- Calendar timestamp record standing for a Python `datetime.datetime`
(UTC, second granularity is all the decoder ever produces). -/
structure PyDateTime where
  year : Nat
  month : Nat
  day : Nat
  hour : Nat
  minute : Nat
  second : Nat
deriving DecidableEq, Repr

/-- Metadata record produced by the header parser.  A Python dict with a
variable key set is embedded as a structure of `Option` fields: a field is
`none` exactly when the corresponding key is absent from the dict. -/
structure CompositeAttributes where
  producttype : String
  datetime : PyDateTime
  radarid : String
  datasize : Option Int := none
  formatversion : Option Int := none
  maxrange : Option String := none
  radolanversion : Option String := none
  precision : Option ℚ := none
  intervalseconds : Option Int := none
  intervalunit : Option Int := none
  nrow : Option Int := none
  ncol : Option Int := none
  radarlocations : Option (List String) := none
  radardays : Option (List String) := none
  nlevel : Option Int := none
  level : Option (List ℚ) := none
  indicator : Option String := none
  imagecount : Option Int := none
  predictiontime : Option Int := none
  moduleflag : Option Int := none
  quantification : Option Int := none
  reanalysisversion : Option String := none
  message : Option String := none
  statisticfilter : Option String := none
  cluttermap : Option String := none
  dopplerfilter : Option String := none
  maxheight : Option Int := none
  hailwarning : Option String := none
  severeconvection : Option (List ℚ) := none
  severeconvectionheights : Option (List Int) := none
  freezing_level : Option String := none
  nodataflag : Option Int := none
deriving DecidableEq, Repr

/-! ## Character-list helpers (Python `str` primitives) -/

/-- Python `str.strip()`: drop ASCII spaces from both ends. -/
def charTrim (l : List Char) : List Char :=
  ((l.dropWhile (· = ' ')).reverse.dropWhile (· = ' ')).reverse

/-- Split a character list at every occurrence of the separator `c`
(Python `str.split(c)`): separators are dropped, empty pieces kept. -/
def splitOnChar (c : Char) (l : List Char) : List (List Char) :=
  match l with
  | [] => [[]]
  | x :: xs =>
    let r := splitOnChar c xs
    if x = c then [] :: r
    else
      match r with
      | [] => [[x]]
      | p :: ps => (x :: p) :: ps

/-- Python `str.split()` with no argument: split on runs of spaces,
dropping empty pieces. -/
def splitWhitespace (l : List Char) : List (List Char) :=
  (splitOnChar ' ' l).filter (· ≠ [])

/-- Check for an ASCII digit. -/
def isDigitChar (c : Char) : Bool :=
  '0' ≤ c ∧ c ≤ '9'

/-- Numeric value of a digit character. -/
def digitVal (c : Char) : Nat :=
  c.toNat - '0'.toNat

/-- Parse a non-empty all-digit character list as a natural number. -/
def parseNat? (l : List Char) : Option Nat :=
  if l = [] then none
  else if l.all isDigitChar then some (l.foldl (fun a c => 10 * a + digitVal c) 0)
  else none

/-- Python `int(str)`: optional spaces around, optional leading minus sign,
then digits. -/
def parseInt? (l : List Char) : Option Int :=
  let t := charTrim l
  match t with
  | '-' :: rest => (parseNat? rest).map (fun n => -(n : Int))
  | _ => (parseNat? t).map (fun n => (n : Int))

/-- Python `float(str)` restricted to the decimal literals occurring in
RADOLAN headers: optional minus sign, digits, optional fractional part. -/
def parseRat? (l : List Char) : Option ℚ :=
  let t := charTrim l
  let core := fun (u : List Char) =>
    match splitOnChar '.' u with
    | [ip] => (parseNat? ip).map (fun n => mkRat (n : Int) 1)
    | [ip, fp] =>
      match parseNat? ip, parseNat? fp with
      | some n, some f =>
        some (mkRat ((n : Int) * (10 : Int) ^ fp.length + (f : Int))
          ((10 : Nat) ^ fp.length))
      | _, _ => none
    | _ => none
  match t with
  | '-' :: rest => (core rest).map (fun q => -q)
  | _ => core t

/-! ## HeaderTokenizer (spec §4.1)

Modelled from the spec: the source function `get_radolan_header_token_pos`
is not in the given tree.  The spec fixes the enumerated token set and the
token-anchor scan; the exact span rule (span of a token runs from the end of
the last occurrence of its name to the smallest position of any other found
token, or to the end of the header) is pinned by the golden position maps in
`test_get_radolan_header_token_pos`. -/

/-- The fixed enumerated header token set, in the order the source dict
enumerates it. -/
def radolanTokenNames : List String :=
  ["BY", "VS", "SW", "PR", "INT", "GP", "MS", "LV", "CS", "MX", "BG", "ST",
   "VV", "MF", "QN", "VR", "U"]

/-- Modelled from the spec: `get_radolan_header_token` returns the token map
with every enumerated token name mapped to `None`. -/
def get_radolan_header_token : List (String × Option (Nat × Nat)) :=
  radolanTokenNames.map (fun t => (t, none))

/-- Index of the last occurrence of `tok` as a sublist of `header`
(Python `str.rfind`, `none` for "not found"). -/
def rfindTok (header tok : List Char) : Option Nat :=
  (List.range (header.length + 1)).foldl
    (fun acc i => if tok.isPrefixOf (header.drop i) then some i else acc) none

/-- Modelled from the spec: anchor scan shared by the composite tokenizer
and the PZ product tokenizer.  Each token of `names` is located by its last
occurrence; a found token's value span runs from the end of the token name
to the smallest position of any other found token further right, or to the
end of the header. -/
def tokenSpans (names : List String) (header : List Char) :
    List (String × Option (Nat × Nat)) :=
  let found := names.map (fun t => (t, rfindTok header t.data))
  found.map (fun p =>
    match p.2 with
    | none => (p.1, none)
    | some d =>
      let stop := (found.filterMap Prod.snd).foldl
        (fun m q => if d < q then min m q else m) header.length
      (p.1, some (d + p.1.length, stop)))

/-- Modelled from the spec: `get_radolan_header_token_pos` builds the
`HeaderTokenMap` for the enumerated composite token set. -/
def get_radolan_header_token_pos (header : List Char) :
    List (String × Option (Nat × Nat)) :=
  tokenSpans radolanTokenNames header

/-! ## HeaderParser (spec §4.2)

Modelled from the spec: `parse_dwd_composite_header` is not in the given
tree.  Fixed-position fields (product type, timestamp digits, radar id) and
the per-token grammars follow spec §4.2; the concrete value formats are
pinned by the golden records in `test_parse_dwd_composite_header`. -/

/-- Maximum-range text derived from the `VS` format version (fixed table,
unknown versions default to "100 km"). -/
def maxrangeFor (vs : Int) : String :=
  if vs = 0 then "100 km and 128 km (mixed)"
  else if vs = 1 then "100 km"
  else if vs = 2 then "128 km"
  else if vs = 3 then "150 km"
  else "100 km"

/-- Level indicator text derived from the `CS` token value; unknown values
leave the key mapped to a null entry (embedded as `none`). -/
def indicatorFor (cs : Int) : Option String :=
  if cs = 0 then some "near ground level"
  else if cs = 1 then some "maximum"
  else if cs = 2 then some "tops"
  else none

/-- Slice `header[s:e]` as in Python. -/
def sliceChars (header : List Char) (s e : Nat) : List Char :=
  (header.drop s).take (e - s)

/-- Lift an optional parse result into `Except`, raising a value error
naming the offending token. -/
def tokenInt (tok : String) (l : List Char) : Except String Int :=
  match parseInt? l with
  | some n => Except.ok n
  | none => Except.error ("invalid literal for token " ++ tok)

/-- Lift a decimal parse into `Except`, raising a value error naming the
offending token. -/
def tokenRat (tok : String) (l : List Char) : Except String ℚ :=
  match parseRat? l with
  | some q => Except.ok q
  | none => Except.error ("invalid literal for token " ++ tok)

/-- Precision grammar `E±NN` (spec §4.2): parsed into the exact scale
`10^(exponent)` (Python computes `float("1" + value)`). -/
def parsePrecision (l : List Char) : Except String ℚ :=
  match charTrim l with
  | 'E' :: '-' :: ds =>
    match parseNat? ds with
    | some k => Except.ok (mkRat 1 ((10 : Nat) ^ k))
    | none => Except.error "invalid literal for token PR"
  | 'E' :: '+' :: ds =>
    match parseNat? ds with
    | some k => Except.ok (mkRat ((10 : Int) ^ k) 1)
    | none => Except.error "invalid literal for token PR"
  | 'E' :: ds =>
    match parseNat? ds with
    | some k => Except.ok (mkRat ((10 : Int) ^ k) 1)
    | none => Except.error "invalid literal for token PR"
  | _ => Except.error "invalid literal for token PR"

/-- Text between the first `<` and the following `>` of `l`; raises if no
`<` is present (Python `l.split("<")[1].split(">")[0]`). -/
def angleBracketList (l : List Char) : Except String (List String) :=
  let rest := l.dropWhile (· ≠ '<')
  match rest with
  | '<' :: inner =>
    Except.ok ((splitOnChar ',' (inner.takeWhile (· ≠ '>'))).map List.asString)
  | _ => Except.error "list index out of range"

/-- Timestamp grammar (spec §4.2): day/hour/minute from `header[2:8]`,
month/2-digit year from `header[13:17]`, century pivot `year < 70 → 20xx`
else `19xx`, seconds zero.  Out-of-range calendar fields raise. -/
def parseHeaderDatetime (header : List Char) : Except String PyDateTime :=
  match parseNat? (sliceChars header 2 4), parseNat? (sliceChars header 4 6),
      parseNat? (sliceChars header 6 8), parseNat? (sliceChars header 13 15),
      parseNat? (sliceChars header 15 17) with
  | some d, some h, some mi, some mo, some y =>
    if 1 ≤ mo ∧ mo ≤ 12 ∧ 1 ≤ d ∧ d ≤ 31 ∧ h ≤ 23 ∧ mi ≤ 59 then
      Except.ok ⟨if y < 70 then 2000 + y else 1900 + y, mo, d, h, mi, 0⟩
    else Except.error "time data does not match format"
  | _, _, _, _, _ => Except.error "time data does not match format"

/-- Grid dimension pair from two parsed integers (the `GP` and `BG`
grammars). -/
def parseGridDims (tok : String) (parts : List (Option Int)) :
    Except String (Int × Int) :=
  match parts with
  | [some r, some c] => Except.ok (r, c)
  | _ => Except.error ("invalid literal for token " ++ tok)

/-- Level-count-plus-levels payload of the `LV` grammar. -/
def parseLevels (tok : String) (ws : List (List Char)) :
    Except String (Int × List ℚ) :=
  match ws with
  | n :: ls =>
    match parseInt? n, (ls.map parseRat?).allSome with
    | some nl, some lv => Except.ok (nl, lv)
    | _, _ => Except.error ("invalid literal for token " ++ tok)
  | [] => Except.error ("invalid literal for token " ++ tok)

/-- Pair of decimals (the PZ `CI` severe-convection grammar). -/
def parseRatPair (tok : String) (a b : Option ℚ) : Except String (ℚ × ℚ) :=
  match a, b with
  | some x, some y => Except.ok (x, y)
  | _, _ => Except.error ("invalid literal for token " ++ tok)

/-- Modelled from the spec: per-token attribute update of the composite
header parser (spec §4.2), acting on the sliced token value `v`. -/
def applyTokenVal (header : List Char) (attrs : CompositeAttributes)
    (tok : String) (start : Nat) (v : List Char) :
    Except String CompositeAttributes :=
  if tok = "BY" then
    match tokenInt tok v with
    | Except.error e => Except.error e
    | Except.ok n =>
      Except.ok { attrs with datasize := some (n - header.length - 1) }
  else if tok = "VS" then
    match tokenInt tok v with
    | Except.error e => Except.error e
    | Except.ok n =>
      Except.ok { attrs with formatversion := some n,
                             maxrange := some (maxrangeFor n) }
  else if tok = "SW" then
    Except.ok { attrs with radolanversion := some (charTrim v).asString }
  else if tok = "PR" then
    match parsePrecision v with
    | Except.error e => Except.error e
    | Except.ok p => Except.ok { attrs with precision := some p }
  else if tok = "INT" then
    match tokenInt tok v with
    | Except.error e => Except.error e
    | Except.ok n => Except.ok { attrs with intervalseconds := some (n * 60) }
  else if tok = "U" then
    match tokenInt tok v with
    | Except.error e => Except.error e
    | Except.ok u =>
      if u = 1 then
        Except.ok { attrs with
          intervalunit := some u
          intervalseconds := attrs.intervalseconds.map (· * 1440) }
      else Except.ok { attrs with intervalunit := some u }
  else if tok = "GP" then
    match parseGridDims tok ((splitOnChar 'x' (charTrim v)).map parseInt?) with
    | Except.error e => Except.error e
    | Except.ok rc =>
      Except.ok { attrs with nrow := some rc.1, ncol := some rc.2 }
  else if tok = "BG" then
    match parseGridDims tok [parseInt? (v.take (v.length / 2)),
        parseInt? (v.drop (v.length / 2))] with
    | Except.error e => Except.error e
    | Except.ok rc =>
      Except.ok { attrs with nrow := some rc.1, ncol := some rc.2 }
  else if tok = "MS" then
    match angleBracketList (header.drop start) with
    | Except.error e => Except.error e
    | Except.ok locs => Except.ok { attrs with radarlocations := some locs }
  else if tok = "ST" then
    match angleBracketList (header.drop start) with
    | Except.error e => Except.error e
    | Except.ok days => Except.ok { attrs with radardays := some days }
  else if tok = "LV" then
    match parseLevels tok (splitWhitespace v) with
    | Except.error e => Except.error e
    | Except.ok p =>
      Except.ok { attrs with nlevel := some p.1, level := some p.2 }
  else if tok = "CS" then
    match tokenInt tok v with
    | Except.error e => Except.error e
    | Except.ok n => Except.ok { attrs with indicator := indicatorFor n }
  else if tok = "MX" then
    match tokenInt tok v with
    | Except.error e => Except.error e
    | Except.ok n => Except.ok { attrs with imagecount := some n }
  else if tok = "VV" then
    match tokenInt tok v with
    | Except.error e => Except.error e
    | Except.ok n => Except.ok { attrs with predictiontime := some n }
  else if tok = "MF" then
    match tokenInt tok v with
    | Except.error e => Except.error e
    | Except.ok n => Except.ok { attrs with moduleflag := some n }
  else if tok = "QN" then
    match tokenInt tok v with
    | Except.error e => Except.error e
    | Except.ok n => Except.ok { attrs with quantification := some n }
  else if tok = "VR" then
    Except.ok { attrs with reanalysisversion := some (charTrim v).asString }
  else
    Except.ok attrs

/-- Modelled from the spec: per-token attribute update of the composite
header parser (spec §4.2).  `span` is the token's value span in `header`. -/
def applyToken (header : List Char) (attrs : CompositeAttributes)
    (tok : String) (span : Nat × Nat) : Except String CompositeAttributes :=
  applyTokenVal header attrs tok span.1 (sliceChars header span.1 span.2)

/-- Fold a token/span list over the attribute record, applying each found
token in the enumerated order. -/
def applyTokens (header : List Char) :
    List (String × Option (Nat × Nat)) → CompositeAttributes →
    Except String CompositeAttributes
  | [], attrs => Except.ok attrs
  | (_, none) :: rest, attrs => applyTokens header rest attrs
  | (tok, some span) :: rest, attrs =>
    match applyToken header attrs tok span with
    | Except.error e => Except.error e
    | Except.ok attrs' => applyTokens header rest attrs'

/-- Anchor set of the PZ-type local product header (spec §3, §4.2
"product-specific blocks"); grammar pinned by the PZ golden record in
`test_parse_dwd_composite_header`. -/
def pzTokenNames : List String :=
  ["BY", "VS", "LV", "CO", "CD", "CS", "MH", "HI", "CI", "CL", "FL", "MS"]

/-- Modelled from the spec: per-token attribute update for PZ-type headers
(hail warning, severe-convection pairs, cluttermap flag and friends),
acting on the sliced token value `v`. -/
def applyPZTokenVal (header : List Char) (attrs : CompositeAttributes)
    (tok : String) (v : List Char) : Except String CompositeAttributes :=
  if tok = "BY" then
    match tokenInt tok v with
    | Except.error e => Except.error e
    | Except.ok n =>
      Except.ok { attrs with datasize := some (n - header.length - 1) }
  else if tok = "VS" then
    match tokenInt tok v with
    | Except.error e => Except.error e
    | Except.ok n =>
      Except.ok { attrs with formatversion := some n,
                             maxrange := some (maxrangeFor n) }
  else if tok = "LV" then
    match parseLevels tok (splitWhitespace v) with
    | Except.error e => Except.error e
    | Except.ok p =>
      Except.ok { attrs with nlevel := some p.1, level := some p.2 }
  else if tok = "CO" then
    Except.ok { attrs with cluttermap := some (charTrim v).asString }
  else if tok = "CD" then
    Except.ok { attrs with dopplerfilter := some (charTrim v).asString }
  else if tok = "CS" then
    Except.ok { attrs with statisticfilter := some (charTrim v).asString }
  else if tok = "MH" then
    match tokenInt tok v with
    | Except.error e => Except.error e
    | Except.ok n => Except.ok { attrs with maxheight := some n }
  else if tok = "HI" then
    Except.ok { attrs with hailwarning := some (charTrim v).asString }
  else if tok = "CI" then
    match parseRatPair tok (parseRat? (v.take (v.length / 2)))
        (parseRat? (v.drop (v.length / 2))) with
    | Except.error e => Except.error e
    | Except.ok p =>
      Except.ok { attrs with severeconvection := some [p.1, p.2] }
  else if tok = "CL" then
    match ((splitWhitespace v).map parseInt?).allSome with
    | some hs => Except.ok { attrs with severeconvectionheights := some hs }
    | none => Except.error ("invalid literal for token " ++ tok)
  else if tok = "FL" then
    Except.ok { attrs with freezing_level := some (charTrim v).asString }
  else if tok = "MS" then
    match parseNat? ((charTrim v).takeWhile isDigitChar) with
    | some n =>
      Except.ok { attrs with
        message := some ((((charTrim v).drop
          ((charTrim v).takeWhile isDigitChar).length).take n).asString) }
    | none => Except.error ("invalid literal for token " ++ tok)
  else
    Except.ok attrs

/-- Modelled from the spec: per-token attribute update for PZ-type
headers. -/
def applyPZToken (header : List Char) (attrs : CompositeAttributes)
    (tok : String) (span : Nat × Nat) : Except String CompositeAttributes :=
  applyPZTokenVal header attrs tok (sliceChars header span.1 span.2)

/-- Fold the PZ anchor/span list over the attribute record. -/
def applyPZTokens (header : List Char) :
    List (String × Option (Nat × Nat)) → CompositeAttributes →
    Except String CompositeAttributes
  | [], attrs => Except.ok attrs
  | (_, none) :: rest, attrs => applyPZTokens header rest attrs
  | (tok, some span) :: rest, attrs =>
    match applyPZToken header attrs tok span with
    | Except.error e => Except.error e
    | Except.ok attrs' => applyPZTokens header rest attrs'

/-- Modelled from the spec: `parse_dwd_composite_header` (spec §4.2).
Fixed-position fields: product type `header[0:2]`, timestamp digits
`header[2:8]` and `header[13:17]`, radar id `header[8:13]`; then the
per-token grammar over the token map.  PZ-type local products use their own
anchor set and a fixed 200×200 grid, pinned by the PZ golden record. -/
def parse_dwd_composite_header (header : List Char) :
    Except String CompositeAttributes :=
  if header.length < 17 then Except.error "header too short"
  else
    match parseHeaderDatetime header with
    | Except.error e => Except.error e
    | Except.ok dtime =>
      if (header.take 2).asString = "PZ" then
        applyPZTokens header (tokenSpans pzTokenNames header)
          { producttype := (header.take 2).asString, datetime := dtime,
            radarid := ((header.drop 8).take 5).asString,
            nrow := some 200, ncol := some 200 }
      else
        applyTokens header (get_radolan_header_token_pos header)
          { producttype := (header.take 2).asString, datetime := dtime,
            radarid := ((header.drop 8).take 5).asString }

/-! ## Sample headers (golden inputs of the repository's tests) -/

/-- RW sample header from `test_parse_dwd_composite_header`. -/
def rwSampleHeader : String :=
  "RW030950100000814BY1620130VS 3SW   2.13.1PR E-01INT  60GP 900x 900MS 58<boo,ros,emd,hnr,pro,ess,asd,neu,nhb,oft,tur,isn,fbg,mem>"

/-- PG sample header from `test_parse_dwd_composite_header`. -/
def pgSampleHeader : String :=
  "PG030905100000814BY20042LV 6  1.0 19.0 28.0 37.0 46.0 55.0CS0MX 0MS 82<boo,ros,emd,hnr,pro,ess,asd,neu,nhb,oft,tur,isn,fbg,mem,czbrd> are used, BG460460"

/-- RQ sample header from `test_parse_dwd_composite_header`. -/
def rqSampleHeader : String :=
  "RQ210945100000517BY1620162VS 2SW 1.7.2PR E-01INT 60GP 900x 900VV 0MF 00000002QN 001MS 67<bln,drs,eis,emd,ess,fbg,fld,fra,ham,han,muc,neu,nhb,ros,tur,umd>"

/-- SQ sample header from `test_parse_dwd_composite_header`. -/
def sqSampleHeader : String :=
  "SQ102050100000814BY1620231VS 3SW   2.13.1PR E-01INT 360GP 900x 900MS 62<boo,ros,emd,hnr,umd,pro,ess,asd,neu,nhb,oft,tur,isn,fbg,mem> ST 92<asd 6,boo 6,emd 6,ess 6,fbg 6,hnr 6,isn 6,mem 6,neu 6,nhb 6,oft 6,pro 6,ros 6,tur 6,umd 6>"

/-- YW sample header from `test_parse_dwd_composite_header`. -/
def ywSampleHeader : String :=
  "YW070235100001014BY1980156VS 3SW   2.18.3PR E-02INT   5U0GP1100x 900MF 00000000VR2017.002MS 61<boo,ros,emd,hnr,umd,pro,ess,asd,neu,nhb,oft,tur,isn,fbg,mem>"

/-- PZ sample header from `test_parse_dwd_composite_header`. -/
def pzSampleHeader : String :=
  "PZ220704104101123BY 4923VS 1LV 6  1.0 19.0 28.0 37.0 46.0 55.0CO0CD0CS0MH12HI-32.0CI-32.0-32.0CL 0 0FL9999MS  0"


/-! ## Golden metadata records (from `test_parse_dwd_composite_header`) -/

/-- Expected record for the RW sample header. -/
def rwExpectedAttrs : CompositeAttributes :=
  { producttype := "RW", datetime := ⟨2014, 8, 3, 9, 50, 0⟩,
    radarid := "10000", datasize := some 1620001, formatversion := some 3,
    maxrange := some "150 km", radolanversion := some "2.13.1",
    precision := some (mkRat 1 10), intervalseconds := some 3600,
    nrow := some 900, ncol := some 900,
    radarlocations := some ["boo", "ros", "emd", "hnr", "pro", "ess", "asd",
      "neu", "nhb", "oft", "tur", "isn", "fbg", "mem"] }

/-- Expected record for the PG sample header. -/
def pgExpectedAttrs : CompositeAttributes :=
  { producttype := "PG", datetime := ⟨2014, 8, 3, 9, 5, 0⟩,
    radarid := "10000", datasize := some 19889,
    nrow := some 460, ncol := some 460,
    radarlocations := some ["boo", "ros", "emd", "hnr", "pro", "ess", "asd",
      "neu", "nhb", "oft", "tur", "isn", "fbg", "mem", "czbrd"],
    nlevel := some 6, level := some [1, 19, 28, 37, 46, 55],
    indicator := some "near ground level", imagecount := some 0 }

/-- Expected record for the RQ sample header. -/
def rqExpectedAttrs : CompositeAttributes :=
  { producttype := "RQ", datetime := ⟨2017, 5, 21, 9, 45, 0⟩,
    radarid := "10000", datasize := some 1620008, formatversion := some 2,
    maxrange := some "128 km", radolanversion := some "1.7.2",
    precision := some (mkRat 1 10), intervalseconds := some 3600,
    nrow := some 900, ncol := some 900,
    radarlocations := some ["bln", "drs", "eis", "emd", "ess", "fbg", "fld",
      "fra", "ham", "han", "muc", "neu", "nhb", "ros", "tur", "umd"],
    predictiontime := some 0, moduleflag := some 2,
    quantification := some 1 }

/-- Expected record for the SQ sample header. -/
def sqExpectedAttrs : CompositeAttributes :=
  { producttype := "SQ", datetime := ⟨2014, 8, 10, 20, 50, 0⟩,
    radarid := "10000", datasize := some 1620001, formatversion := some 3,
    maxrange := some "150 km", radolanversion := some "2.13.1",
    precision := some (mkRat 1 10), intervalseconds := some 21600,
    nrow := some 900, ncol := some 900,
    radarlocations := some ["boo", "ros", "emd", "hnr", "umd", "pro", "ess",
      "asd", "neu", "nhb", "oft", "tur", "isn", "fbg", "mem"],
    radardays := some ["asd 6", "boo 6", "emd 6", "ess 6", "fbg 6", "hnr 6",
      "isn 6", "mem 6", "neu 6", "nhb 6", "oft 6", "pro 6", "ros 6", "tur 6",
      "umd 6"] }

/-- Expected record for the YW sample header. -/
def ywExpectedAttrs : CompositeAttributes :=
  { producttype := "YW", datetime := ⟨2014, 10, 7, 2, 35, 0⟩,
    radarid := "10000", datasize := some 1980000, formatversion := some 3,
    maxrange := some "150 km", radolanversion := some "2.18.3",
    precision := some (mkRat 1 100), intervalseconds := some 300,
    intervalunit := some 0, nrow := some 1100, ncol := some 900,
    radarlocations := some ["boo", "ros", "emd", "hnr", "umd", "pro", "ess",
      "asd", "neu", "nhb", "oft", "tur", "isn", "fbg", "mem"],
    moduleflag := some 0, reanalysisversion := some "2017.002" }

/-- Expected record for the PZ sample header. -/
def pzExpectedAttrs : CompositeAttributes :=
  { producttype := "PZ", datetime := ⟨2023, 11, 22, 7, 4, 0⟩,
    radarid := "10410", datasize := some 4811, formatversion := some 1,
    maxrange := some "100 km", nrow := some 200, ncol := some 200,
    nlevel := some 6, level := some [1, 19, 28, 37, 46, 55],
    message := some "", statisticfilter := some "0",
    cluttermap := some "0", dopplerfilter := some "0",
    maxheight := some 12, hailwarning := some "-32.0",
    severeconvection := some [-32, -32],
    severeconvectionheights := some [0, 0],
    freezing_level := some "9999" }

deriving instance DecidableEq for Except

set_option maxRecDepth 8000 in
/-- C1: `parse_dwd_composite_header` reproduces, field for field, the golden
`CompositeAttributes` records of the repository's tests for the RW sample
header (producttype "RW", datetime 2014-08-03T09:50:00, 900×900 grid,
precision 1/10, datasize 1620001) and likewise for the PG, RQ, SQ, YW and
PZ sample headers. -/
theorem c1_parse_dwd_composite_header_golden :
    parse_dwd_composite_header rwSampleHeader.data = Except.ok rwExpectedAttrs ∧
    parse_dwd_composite_header pgSampleHeader.data = Except.ok pgExpectedAttrs ∧
    parse_dwd_composite_header rqSampleHeader.data = Except.ok rqExpectedAttrs ∧
    parse_dwd_composite_header sqSampleHeader.data = Except.ok sqExpectedAttrs ∧
    parse_dwd_composite_header ywSampleHeader.data = Except.ok ywExpectedAttrs ∧
    parse_dwd_composite_header pzSampleHeader.data = Except.ok pzExpectedAttrs := by
  refine ⟨?_, ?_, ?_, ?_, ?_, ?_⟩ <;> decide

/-! ## Token map invariants (claim C4) -/

/-- The key list of a token span map is exactly the token name list it was
built from. -/
theorem tokenSpans_keys (names : List String) (header : List Char) :
    (tokenSpans names header).map Prod.fst = names := by
  unfold tokenSpans
  rw [List.map_map, List.map_map]
  refine (List.map_congr_left fun t ht => ?_).trans (List.map_id names)
  simp only [Function.comp_apply, id_eq]
  cases h : rfindTok header t.data <;> simp [h]

/-- Accumulating last-match fold used by `rfindTok`: the result is `none`
exactly when the accumulator started as `none` and no listed index
matches. -/
theorem foldl_lastMatch_eq_none (p : Nat → Bool) (l : List Nat)
    (acc : Option Nat) :
    (l.foldl (fun a i => if p i then some i else a) acc = none) ↔
      (acc = none ∧ ∀ i ∈ l, ¬ p i) := by
  induction l generalizing acc with
  | nil => simp
  | cons x xs ih =>
    rw [List.foldl_cons, ih]
    by_cases hp : p x <;> simp [hp]

/-- `rfindTok` finds nothing exactly when the token occurs nowhere in the
header (for a non-empty token). -/
theorem rfindTok_eq_none_iff (header tok : List Char) (htok : tok ≠ []) :
    rfindTok header tok = none ↔ ∀ i, ¬ tok <+: header.drop i := by
  unfold rfindTok
  rw [foldl_lastMatch_eq_none]
  constructor
  · rintro ⟨-, h⟩ i hpre
    by_cases hi : i < header.length + 1
    · exact h i (List.mem_range.mpr hi) (by
        simp [List.isPrefixOf_iff_prefix, hpre])
    · have hlen : header.length ≤ i := by omega
      rw [List.drop_eq_nil_of_le hlen] at hpre
      exact htok (List.prefix_nil.mp hpre)
  · intro h
    exact ⟨rfl, fun i _ hb => h i (List.isPrefixOf_iff_prefix.mp hb)⟩

/-- Every enumerated composite token name is non-empty. -/
theorem radolanTokenNames_ne_nil : ∀ t ∈ radolanTokenNames, t.data ≠ [] := by
  decide

/-- Golden token position map for the RW sample header
(`test_get_radolan_header_token_pos`). -/
def rwTokenGolden : List (String × Option (Nat × Nat)) :=
  [("BY", some (19, 26)), ("VS", some (28, 30)), ("SW", some (32, 41)),
   ("PR", some (43, 48)), ("INT", some (51, 55)), ("GP", some (57, 66)),
   ("MS", some (68, 128)), ("LV", none), ("CS", none), ("MX", none),
   ("BG", none), ("ST", none), ("VV", none), ("MF", none), ("QN", none),
   ("VR", none), ("U", none)]

/-- Golden token position map for the RQ sample header
(`test_get_radolan_header_token_pos`). -/
def rqTokenGolden : List (String × Option (Nat × Nat)) :=
  [("BY", some (19, 26)), ("VS", some (28, 30)), ("SW", some (32, 38)),
   ("PR", some (40, 45)), ("INT", some (48, 51)), ("GP", some (53, 62)),
   ("MS", some (85, 153)), ("LV", none), ("CS", none), ("MX", none),
   ("BG", none), ("ST", none), ("VV", some (64, 66)), ("MF", some (68, 77)),
   ("QN", some (79, 83)), ("VR", none), ("U", none)]

set_option maxRecDepth 8000 in
/-- C4: for every header string the `HeaderTokenMap` has as its key list
exactly the fixed enumerated token set, a token maps to `none` exactly when
it does not occur in the header (so every present token maps to its
character-offset span); the all-`none` base map has the same key set, and
the map reproduces the golden position maps of the RW and RQ sample
headers. -/
theorem c4_header_tokenmap :
    (∀ header : List Char,
      ((get_radolan_header_token_pos header).map Prod.fst =
        radolanTokenNames) ∧
      (∀ tok span, (tok, span) ∈ get_radolan_header_token_pos header →
        (span = none ↔ ∀ i, ¬ tok.data <+: header.drop i))) ∧
    (get_radolan_header_token.map Prod.fst = radolanTokenNames) ∧
    get_radolan_header_token_pos rwSampleHeader.data = rwTokenGolden ∧
    get_radolan_header_token_pos rqSampleHeader.data = rqTokenGolden := by
  refine ⟨fun header => ⟨tokenSpans_keys _ _, ?_⟩, by decide, by decide,
    by decide⟩
  intro tok span hmem
  unfold get_radolan_header_token_pos tokenSpans at hmem
  rcases List.mem_map.mp hmem with ⟨p, hp, hgp⟩
  rcases List.mem_map.mp hp with ⟨t, ht, rfl⟩
  have htne : t.data ≠ [] := radolanTokenNames_ne_nil t ht
  rcases hfind : rfindTok header t.data with _ | d <;>
    simp only [hfind] at hgp
  · injection hgp with h1 h2
    subst h1; subst h2
    simpa using (rfindTok_eq_none_iff header t.data htne).mp hfind
  · injection hgp with h1 h2
    subst h1; subst h2
    constructor
    · intro h; exact Option.noConfusion h
    · intro h
      have hn := (rfindTok_eq_none_iff header t.data htne).mpr h
      rw [hfind] at hn
      exact Option.noConfusion hn

set_option maxRecDepth 8000 in
/-- C4 witness: the key-set equality and the absence characterization of the
token map, instantiated on the RW sample header and the absent token LV. -/
theorem c4_header_tokenmap_witness :
    ((get_radolan_header_token_pos rwSampleHeader.data).map Prod.fst =
      radolanTokenNames) ∧
    ¬ "LV".data <+: rwSampleHeader.data.drop 5 := by
  have h := c4_header_tokenmap
  exact ⟨(h.1 rwSampleHeader.data).1,
    ((h.1 rwSampleHeader.data).2 "LV" none (by decide)).mp rfl 5⟩

/-! ## RunLengthDecoder (spec §4.5)

Modelled from the spec: `decode_radolan_runlength_line` is not in the given
tree.  The nibble-split byte-pair scheme (high nibble = run width, low
nibble = cell value), the leading line-number byte, the offset byte with
`0xFF` continuation, the `0x0A` terminator and the fill-with-nodata
background are pinned by the golden expansion in
`test_decode_radolan_runlength_line`. -/

/-- Write `width` copies of `val` into `arr` starting at index `idx`,
clipping at the end of the array (numpy slice assignment semantics). -/
def rlSetRange : List Nat → Nat → Nat → Nat → List Nat
  | [], _, _, _ => []
  | a :: rest, 0, 0, _ => a :: rest
  | _ :: rest, 0, w + 1, v => v :: rlSetRange rest 0 w v
  | a :: rest, i + 1, w, v => a :: rlSetRange rest i w v

/-- Expand run bytes into `arr` from position `idx`: each byte holds a run
width in its high nibble and a cell value in its low nibble; the byte `0x0A`
terminates the line early. -/
def rlFill : List Nat → Nat → List Nat → List Nat
  | arr, _, [] => arr
  | arr, idx, b :: rest =>
    if b = 10 then arr
    else rlFill (rlSetRange arr idx (b / 16) (b % 16)) (idx + b / 16) rest

/-- Offset-byte continuation: while the previous offset byte was `0xFF`,
consume further bytes, accumulating `byte - 16` each time. -/
def rlOffsetCont : Nat → List Nat → Nat × List Nat
  | acc, [] => (acc, [])
  | acc, b :: rest =>
    if b = 255 then rlOffsetCont (acc + (b - 16)) rest
    else (acc + (b - 16), rest)

/-- Modelled from the spec: `decode_radolan_runlength_line`.  `line[0]` is
the line-number byte (skipped); `line[1]` is the offset byte (value
`byte - 16`, extended while the byte is `0xFF`); a `0x0A` directly after the
line number yields an all-nodata line; remaining bytes are nibble-encoded
runs written over an all-nodata background of length `ncol`. -/
def decode_radolan_runlength_line (line : List Nat) (ncol nodata : Nat) :
    List Nat :=
  match line with
  | _ :: b :: rest =>
    if b = 10 then List.replicate ncol nodata
    else
      let s := if b = 255 then rlOffsetCont (b - 16) rest else (b - 16, rest)
      rlFill (List.replicate ncol nodata) s.1 s.2
  | _ => List.replicate ncol nodata

/-- `rlSetRange` preserves the array length. -/
theorem rlSetRange_length (arr : List Nat) :
    ∀ i w v, (rlSetRange arr i w v).length = arr.length := by
  induction arr with
  | nil => intro i w v; rfl
  | cons a rest ih =>
    intro i w v
    match i, w with
    | 0, 0 => rfl
    | 0, w + 1 => simpa [rlSetRange] using ih 0 w v
    | i + 1, w => simpa [rlSetRange] using ih i w v

/-- `rlFill` preserves the array length. -/
theorem rlFill_length (dl : List Nat) :
    ∀ arr idx, (rlFill arr idx dl).length = arr.length := by
  induction dl with
  | nil => intro arr idx; rfl
  | cons b rest ih =>
    intro arr idx
    by_cases hb : b = 10 <;> simp [rlFill, hb, ih, rlSetRange_length]

/-- Every decoded run-length line has exactly `ncol` cells. -/
theorem decode_radolan_runlength_line_length (line : List Nat)
    (ncol nodata : Nat) :
    (decode_radolan_runlength_line line ncol nodata).length = ncol := by
  match line with
  | [] => simp [decode_radolan_runlength_line]
  | [a] => simp [decode_radolan_runlength_line]
  | _ :: b :: rest =>
    by_cases hb : b = 10 <;>
      simp [decode_radolan_runlength_line, hb, rlFill_length]

/-- The encoded test line of `test_decode_radolan_runlength_line`:
bytes `10 98 f9×18 d9 0a`. -/
def rlTestLine : List Nat :=
  [16, 152] ++ List.replicate 18 249 ++ [217, 10]

set_option maxRecDepth 8000 in
/-- C3 counterexample: with `ncol = 460` and `nodataflag = 0`, the decoder
does not expand the fixed test line to 108 zeros, 317 nines and 35 zeros;
the golden array of the repository's test has 136 zeros, 283 nines and 41
zeros. -/
theorem c3_runlength_line_counterexample :
    decode_radolan_runlength_line rlTestLine 460 0 ≠
      List.replicate 108 0 ++ List.replicate 317 9 ++ List.replicate 35 0 := by
  decide

set_option maxRecDepth 8000 in
/-- C3 (amended): with `ncol = 460` and `nodataflag = 0` the decoder expands
the fixed test line `10 98 f9×18 d9 0a` to exactly 136 zeros, then 283
nines, then 41 zeros (the golden 460-element array of the repository's
test), and expands the minimal line `10 0a` to 460 zeros: an encoded line
ending before `ncol` cells is zero-padded, never an error. -/
theorem c3_runlength_line_golden :
    decode_radolan_runlength_line rlTestLine 460 0 =
      List.replicate 136 0 ++ List.replicate 283 9 ++ List.replicate 41 0 ∧
    decode_radolan_runlength_line [16, 10] 460 0 = List.replicate 460 0 := by
  exact ⟨by decide, by decide⟩

/-! ## Header and payload reading (spec §4.3, §4.4, §6) -/

/-- Split a byte stream at the first ETX control byte `0x03`: bytes before
it and bytes after it, or `none` when the stream ends first. -/
def splitAtETX : List Nat → Option (List Nat × List Nat)
  | [] => none
  | b :: rest =>
    if b = 3 then some ([], rest)
    else (splitAtETX rest).map (fun p => (b :: p.1, p.2))

/-- Modelled from the spec: `read_radolan_header` reads single bytes until
the ETX control byte `0x03` and returns the decoded text before it; a
stream that ends before any control byte raises an end-of-file error. -/
def read_radolan_header (contents : List Nat) :
    Except String (List Char × List Nat) :=
  match splitAtETX contents with
  | none =>
    Except.error "Unexpected EOF detected while reading RADOLAN header"
  | some (h, rest) => Except.ok (h.map Char.ofNat, rest)

/-- Modelled from the spec: `read_radolan_binary_array` reads `size` bytes
from the remaining stream and, when `raiseOnError` is set, fails with an
I/O error if fewer bytes are available than declared. -/
def read_radolan_binary_array (avail : List Nat) (size : Nat)
    (raiseOnError : Bool) : Except String (List Nat) :=
  let binarr := avail.take size
  if raiseOnError ∧ binarr.length ≠ size then
    Except.error "IOError: Could not read enough data"
  else Except.ok binarr

/-! ## CompositeDecoder (spec §4.6) -/

/-- Products stored as one byte per cell (spec §4.6 dispatch table). -/
def rawByteProducts : List String := ["RX", "EX", "WX"]

/-- Products stored with the run-length encoding (spec §4.6 dispatch
table). -/
def runlengthProducts : List String := ["PG", "PC"]

/-- Value of a one-byte cell: byte value, with the byte 250 as the no-data
marker replaced by the `missing` sentinel. -/
def decodeUint8Cell (missing : Int) (b : Nat) : ℚ :=
  if b = 250 then mkRat missing 1 else mkRat b 1

/-- Value of a two-byte cell: bit 13 (`0x2000`) is the no-data flag, the
low twelve bits are the value, scaled by the precision factor (flag
extraction happens before scale multiplication, spec §9). -/
def decodeUint16Cell (missing : Int) (prec : ℚ) (w : Nat) : ℚ :=
  if w &&& 8192 ≠ 0 then mkRat missing 1
  else mkRat ((w &&& 4095 : Nat) * prec.num) prec.den

/-- Little-endian two-byte words of a buffer; fails on an odd byte count
(numpy `frombuffer` semantics). -/
def toUint16LE : List Nat → Except String (List Nat)
  | [] => Except.ok []
  | [_] => Except.error "buffer size must be a multiple of element size"
  | a :: b :: rest =>
    match toUint16LE rest with
    | Except.error e => Except.error e
    | Except.ok ws => Except.ok ((a + 256 * b) :: ws)

/-- Chunks of the payload ending after each line-feed byte `0x0A`
(Python `readline` on the payload buffer). -/
def splitLinesRL : List Nat → List (List Nat)
  | [] => []
  | b :: rest =>
    let r := splitLinesRL rest
    if b = 10 then [b] :: r
    else
      match r with
      | [] => [[b]]
      | first :: others => (b :: first) :: others

/-- Modelled from the spec: `decode_radolan_runlength_array` decodes the
payload line by line until the end-of-transmission line `0x04`, then flips
the line order (first encoded line is the top grid row). -/
def decode_radolan_runlength_array (binarr : List Nat) (ncol nodata : Nat) :
    List (List Nat) :=
  (((splitLinesRL binarr).takeWhile (· ≠ [4])).map
    (fun l => decode_radolan_runlength_line l ncol nodata)).reverse

/-- Fuel-bounded worker for `chunkList` (structural recursion so that the
kernel can evaluate it; the fuel is the list length, which always
suffices). -/
def chunkGo (c : Nat) : Nat → List ℚ → List (List ℚ)
  | _, [] => []
  | 0, _ :: _ => []
  | fuel + 1, x :: xs =>
    if c = 0 then []
    else (x :: xs).take c :: chunkGo c fuel ((x :: xs).drop c)

/-- Rows of length `c` cut from a flat cell list (numpy `reshape`). -/
def chunkList (c : Nat) (l : List ℚ) : List (List ℚ) :=
  chunkGo c l.length l

/-- Modelled from the spec: value-decoding dispatch of the composite
decoder (spec §4.6): one byte per cell for the RX family, run-length
decoding for the PG family, little-endian two-byte cells with flag masking
and precision scaling otherwise. -/
def decodePayloadValues (attrs : CompositeAttributes) (missing : Int)
    (cn : Nat) (indat : List Nat) : Except String (List ℚ) :=
  if attrs.producttype ∈ rawByteProducts then
    Except.ok (indat.map (decodeUint8Cell missing))
  else if attrs.producttype ∈ runlengthProducts then
    Except.ok (((decode_radolan_runlength_array indat cn
      ((missing.emod 256).toNat)).flatten).map (fun v => mkRat v 1))
  else
    match attrs.precision with
    | none => Except.error "KeyError: precision"
    | some prec =>
      match toUint16LE indat with
      | Except.error e => Except.error e
      | Except.ok ws => Except.ok (ws.map (decodeUint16Cell missing prec))

/-- Modelled from the spec: payload loading and decoding stage of
`read_radolan_composite` (spec §4.6): read `datasize` bytes (padding the
short read with zeroes when `fillmissing` recovery is engaged), dispatch on
the product code to the decoding path, reshape to `(nrow, ncol)` and attach
the `nodataflag` attribute. -/
def loadGrid (attrs : CompositeAttributes) (missing : Int)
    (fillmissing : Bool) (rest : List Nat) :
    Except String (List (List ℚ) × CompositeAttributes) :=
  match attrs.datasize, attrs.nrow, attrs.ncol with
  | some dsize, some r, some c =>
    match read_radolan_binary_array rest dsize.toNat (!fillmissing) with
    | Except.error e => Except.error e
    | Except.ok buf =>
      if c.toNat = 0 then Except.error "invalid grid dimensions"
      else
        match decodePayloadValues attrs missing c.toNat
            (buf ++ List.replicate (dsize.toNat - buf.length) 0) with
        | Except.error e => Except.error e
        | Except.ok vals =>
          if vals.length = r.toNat * c.toNat then
            Except.ok (chunkList c.toNat vals,
              { attrs with nodataflag := some missing })
          else Except.error "cannot reshape array"
  | _, _, _ => Except.error "KeyError: datasize/nrow/ncol"

/-- Modelled from the spec: `read_radolan_composite` decode entry point.
Reads and parses the header; with `loaddata = false` returns `(none, attrs)`
leaving the attributes untouched, otherwise loads and decodes the payload
and returns the grid together with the attributes extended by the
`nodataflag` sentinel. -/
def read_radolan_composite (contents : List Nat) (missing : Int)
    (loaddata fillmissing : Bool) :
    Except String (Option (List (List ℚ)) × CompositeAttributes) :=
  match read_radolan_header contents with
  | Except.error e => Except.error e
  | Except.ok (hdr, rest) =>
    match parse_dwd_composite_header hdr with
    | Except.error e => Except.error e
    | Except.ok attrs =>
      if loaddata then
        match loadGrid attrs missing fillmissing rest with
        | Except.error e => Except.error e
        | Except.ok (grid, attrs') => Except.ok (some grid, attrs')
      else Except.ok (none, attrs)

/-! ## Header reading (claim C5) -/

/-- The ETX scan fails exactly when the stream holds no `0x03` byte. -/
theorem splitAtETX_eq_none (l : List Nat) : splitAtETX l = none ↔ 3 ∉ l := by
  induction l with
  | nil => simp [splitAtETX]
  | cons b rest ih =>
    by_cases hb : b = 3
    · subst hb; simp [splitAtETX]
    · simp [splitAtETX, hb, Option.map_eq_none', ih, Ne.symm hb]

/-- The ETX scan splits at the first `0x03` byte. -/
theorem splitAtETX_append (a b : List Nat) (ha : 3 ∉ a) :
    splitAtETX (a ++ 3 :: b) = some (a, b) := by
  induction a with
  | nil => simp [splitAtETX]
  | cons x xs ih =>
    have hx : x ≠ 3 := by
      intro h; exact ha (h ▸ List.mem_cons_self x xs)
    have hxs : 3 ∉ xs := fun h => ha (List.mem_cons_of_mem x h)
    simp [splitAtETX, hx, ih hxs]

/-- C5: reading the header from a stream with no ETX control byte `0x03`
raises an end-of-file error; when the control byte is present, the header
is exactly the decoded text preceding the first control byte, with the
stream positioned after it. -/
theorem c5_read_radolan_header :
    (∀ contents : List Nat, 3 ∉ contents →
      read_radolan_header contents =
        Except.error "Unexpected EOF detected while reading RADOLAN header") ∧
    (∀ a b : List Nat, 3 ∉ a →
      read_radolan_header (a ++ 3 :: b) =
        Except.ok (a.map Char.ofNat, b)) := by
  constructor
  · intro contents h
    unfold read_radolan_header
    rw [(splitAtETX_eq_none contents).mpr h]
  · intro a b ha
    unfold read_radolan_header
    rw [splitAtETX_append a b ha]

/-- C5 witness: a concrete stream without the control byte errors, and the
same bytes followed by `0x03` and payload yield the decoded header text. -/
theorem c5_read_radolan_header_witness :
    read_radolan_header [82, 87] =
      Except.error "Unexpected EOF detected while reading RADOLAN header" ∧
    read_radolan_header [82, 87, 3, 9] = Except.ok (['R', 'W'], [9]) := by
  refine ⟨c5_read_radolan_header.1 [82, 87] (by decide), ?_⟩
  rw [show ([82, 87, 3, 9] : List Nat) = [82, 87] ++ 3 :: [9] from rfl,
    c5_read_radolan_header.2 [82, 87] [9] (by decide)]
  decide

/-! ## Grid shape (claim C7) -/

/-- Fuel-generic version of `chunkList_length`: with enough fuel, a flat
list of `r * c` cells chunks into `r` rows. -/
theorem chunkGo_length (c : Nat) (hc : c ≠ 0) :
    ∀ (r fuel : Nat) (l : List ℚ), l.length = r * c → l.length ≤ fuel →
      (chunkGo c fuel l).length = r := by
  intro r
  induction r with
  | zero =>
    intro fuel l hl _
    have : l = [] := List.eq_nil_of_length_eq_zero (by simpa using hl)
    subst this
    cases fuel <;> rfl
  | succ n ih =>
    intro fuel l hl hfuel
    have hpos : 0 < (n + 1) * c :=
      Nat.mul_pos (Nat.succ_pos n) (Nat.pos_of_ne_zero hc)
    match fuel, l with
    | _, [] => exfalso; simp at hl; omega
    | 0, x :: xs => exfalso; simp at hfuel
    | f + 1, x :: xs =>
      unfold chunkGo
      simp only [hc, if_false]
      rw [List.length_cons, ih f ((x :: xs).drop c)
        (by rw [List.length_drop, hl]; rw [Nat.succ_mul]; omega)
        (by rw [List.length_drop]; omega)]

/-- A flat list of `r * c` cells chunks into `r` rows. -/
theorem chunkList_length (c : Nat) (hc : c ≠ 0) :
    ∀ (r : Nat) (l : List ℚ), l.length = r * c →
      (chunkList c l).length = r :=
  fun r l hl => chunkGo_length c hc r l.length l hl (Nat.le_refl _)

/-- Fuel-generic version of `chunkList_row_length`. -/
theorem chunkGo_row_length (c : Nat) (hc : c ≠ 0) :
    ∀ (r fuel : Nat) (l : List ℚ), l.length = r * c → l.length ≤ fuel →
      ∀ row ∈ chunkGo c fuel l, row.length = c := by
  intro r
  induction r with
  | zero =>
    intro fuel l hl _ row hrow
    have : l = [] := List.eq_nil_of_length_eq_zero (by simpa using hl)
    subst this
    cases fuel <;> simp [chunkGo] at hrow
  | succ n ih =>
    intro fuel l hl hfuel row hrow
    have hpos : 0 < (n + 1) * c :=
      Nat.mul_pos (Nat.succ_pos n) (Nat.pos_of_ne_zero hc)
    match fuel, l with
    | _, [] => exfalso; simp at hl; omega
    | 0, x :: xs => exfalso; simp at hfuel
    | f + 1, x :: xs =>
      unfold chunkGo at hrow
      simp only [hc, if_false, List.mem_cons] at hrow
      rcases hrow with h | h
      · subst h
        rw [List.length_take, hl]
        have : c ≤ (n + 1) * c := Nat.le_mul_of_pos_left c (Nat.succ_pos n)
        omega
      · exact ih f ((x :: xs).drop c)
          (by rw [List.length_drop, hl]; rw [Nat.succ_mul]; omega)
          (by rw [List.length_drop]; omega) row h

/-- Every row chunked from a flat list of `r * c` cells has length `c`. -/
theorem chunkList_row_length (c : Nat) (hc : c ≠ 0) :
    ∀ (r : Nat) (l : List ℚ), l.length = r * c →
      ∀ row ∈ chunkList c l, row.length = c :=
  fun r l hl => chunkGo_row_length c hc r l.length l hl (Nat.le_refl _)

/-- Shape of a successfully loaded grid: exactly `(nrow, ncol)` rows and
columns as recorded in the returned attributes. -/
theorem loadGrid_shape (attrs : CompositeAttributes) (missing : Int)
    (fm : Bool) (rest : List Nat) (grid : List (List ℚ))
    (attrs' : CompositeAttributes)
    (h : loadGrid attrs missing fm rest = Except.ok (grid, attrs')) :
    ∃ r c, attrs'.nrow = some r ∧ attrs'.ncol = some c ∧
      grid.length = r.toNat ∧ ∀ row ∈ grid, row.length = c.toNat := by
  unfold loadGrid at h
  repeat' split at h
  all_goals try exact Except.noConfusion h
  rename_i x4 x3 x2 dsize r c hds hr hc buf0 ws hbuf hc0 valsE vals hvals hlen
  injection h with h'
  injection h' with hgrid hattrs
  subst hgrid; subst hattrs
  exact ⟨r, c, hr, hc, chunkList_length c.toNat hc0 r.toNat vals hlen,
    chunkList_row_length c.toNat hc0 r.toNat vals hlen⟩

/-- C7: every composite successfully decoded with data loading (whichever
payload path was dispatched) yields a grid of shape exactly `(nrow, ncol)`
as recorded in the parsed header attributes. -/
theorem c7_grid_shape (contents : List Nat) (missing : Int) (fm : Bool)
    (grid : List (List ℚ)) (attrs : CompositeAttributes)
    (h : read_radolan_composite contents missing true fm =
      Except.ok (some grid, attrs)) :
    ∃ r c, attrs.nrow = some r ∧ attrs.ncol = some c ∧
      grid.length = r.toNat ∧ ∀ row ∈ grid, row.length = c.toNat := by
  unfold read_radolan_composite at h
  repeat' split at h
  all_goals try exact Except.noConfusion h
  all_goals try exact absurd rfl ‹¬true = true›
  injection h with h'
  injection h' with hsome hattrs
  injection hsome with hg
  subst hattrs; subst hg
  exact loadGrid_shape _ missing fm _ _ _ (by assumption)

/-! ## Concrete witness stream -/

/-- Synthetic minimal RW-style header used as concrete witness input: its
`BY` value 51 declares a payload of 51 − 42 − 1 = 8 bytes and `GP` a 2×2
grid, so the payload is exactly the 2 bytes per cell of the two-byte
path. -/
def witnessHeader : String := "RW030950100000814BY   51PR E-01GP   2x   2"

/-- Witness stream carrying the full 8-byte payload. -/
def witnessContentsFull : List Nat :=
  witnessHeader.data.map Char.toNat ++ 3 :: List.replicate 8 0

/-- Witness stream whose payload is truncated to 3 of the declared 8
bytes. -/
def witnessContentsTrunc : List Nat :=
  witnessHeader.data.map Char.toNat ++ 3 :: [0, 0, 0]

/-- Attributes parsed from the witness header (before decoding). -/
def witnessAttrsParsed : CompositeAttributes :=
  { producttype := "RW", datetime := ⟨2014, 8, 3, 9, 50, 0⟩,
    radarid := "10000", datasize := some 8, precision := some (mkRat 1 10),
    nrow := some 2, ncol := some 2 }

/-- Attributes of the witness header after decoding (nodata flag
attached). -/
def witnessAttrs : CompositeAttributes :=
  { witnessAttrsParsed with nodataflag := some (-9999) }


/-! ## Truncated payloads (claim C2) -/

/-- A buffer of even length converts to exactly `length / 2` little-endian
two-byte words. -/
theorem toUint16LE_length : ∀ (l : List Nat), l.length % 2 = 0 →
    ∃ ws, toUint16LE l = Except.ok ws ∧ ws.length = l.length / 2
  | [] => fun _ => ⟨[], rfl, rfl⟩
  | [_] => fun h => by simp at h
  | a :: b :: rest => fun h => by
    obtain ⟨ws, hws, hlen⟩ := toUint16LE_length rest (by
      simp only [List.length_cons] at h; omega)
    refine ⟨(a + 256 * b) :: ws, by simp [toUint16LE, hws], ?_⟩
    simp [hlen]
    omega

/-- Synthetic minimal RX-style header for the one-byte dispatch path: its
`BY` value 40 declares a payload of 40 − 35 − 1 = 4 bytes and `GP` a 2×2
grid, one byte per cell. -/
def rxWitnessHeader : String := "RX030950100000814BY   40GP   2x   2"

/-- RX-style witness stream whose payload is truncated to 2 of the
declared 4 bytes. -/
def rxWitnessContentsTrunc : List Nat :=
  rxWitnessHeader.data.map Char.toNat ++ 3 :: [0, 0]

/-- Attributes parsed from the RX-style witness header. -/
def rxWitnessAttrsParsed : CompositeAttributes :=
  { producttype := "RX", datetime := ⟨2014, 8, 3, 9, 50, 0⟩,
    radarid := "10000", datasize := some 4, nrow := some 2, ncol := some 2 }

/-- Attributes of the RX-style witness header after decoding. -/
def rxWitnessAttrs : CompositeAttributes :=
  { rxWitnessAttrsParsed with nodataflag := some (-9999) }

/-- C2: reading a binary payload from a stream holding fewer bytes than
the declared size raises an I/O error when `fillmissing` is not engaged;
and for any composite whose stream holds fewer payload bytes than the
declared `datasize`, on either raw-unpack dispatch path (one byte per cell
for the RX family, two bytes per cell otherwise), decoding with
`fillmissing = true` returns, without raising, a grid of the full
`(nrow, ncol)` shape declared in the header, the missing tail being
zero-padded before decoding. -/
theorem c2_truncated_payload :
    (∀ (avail : List Nat) (size : Nat), avail.length < size →
      read_radolan_binary_array avail size true =
        Except.error "IOError: Could not read enough data") ∧
    (∀ (hdrBytes payload : List Nat) (missing : Int)
      (attrs : CompositeAttributes) (dsize r c : Int) (p : ℚ),
      3 ∉ hdrBytes →
      parse_dwd_composite_header (hdrBytes.map Char.ofNat) = Except.ok attrs →
      attrs.datasize = some dsize →
      attrs.nrow = some r → attrs.ncol = some c →
      attrs.producttype ∉ runlengthProducts →
      (attrs.producttype ∈ rawByteProducts →
        dsize.toNat = r.toNat * c.toNat) →
      (attrs.producttype ∉ rawByteProducts →
        dsize.toNat = 2 * (r.toNat * c.toNat) ∧ attrs.precision = some p) →
      c.toNat ≠ 0 →
      payload.length < dsize.toNat →
      ∃ grid,
        read_radolan_composite (hdrBytes ++ 3 :: payload) missing true true =
          Except.ok (some grid, { attrs with nodataflag := some missing }) ∧
        grid.length = r.toNat ∧ ∀ row ∈ grid, row.length = c.toNat) := by
  constructor
  · intro avail size hshort
    unfold read_radolan_binary_array
    rw [if_pos]
    constructor
    · rfl
    · rw [List.length_take]
      omega
  · intro hdrBytes payload missing attrs dsize r c p hno3 hparse hds hr hc
      hrl himp1 himp2 hc0 hshort
    have hple : payload.length ≤ dsize.toNat := Nat.le_of_lt hshort
    have hhdr : read_radolan_header (hdrBytes ++ 3 :: payload) =
        Except.ok (hdrBytes.map Char.ofNat, payload) := by
      unfold read_radolan_header
      rw [splitAtETX_append hdrBytes payload hno3]
    have hbuf : read_radolan_binary_array payload dsize.toNat false =
        Except.ok payload := by
      unfold read_radolan_binary_array
      simp [List.take_of_length_le hple]
    have hindat : (payload ++
        List.replicate (dsize.toNat - payload.length) 0).length =
        dsize.toNat := by
      simp; omega
    by_cases hraw : attrs.producttype ∈ rawByteProducts
    · have hsize := himp1 hraw
      have hdecode : decodePayloadValues attrs missing c.toNat
          (payload ++ List.replicate (dsize.toNat - payload.length) 0) =
          Except.ok ((payload ++
            List.replicate (dsize.toNat - payload.length) 0).map
              (decodeUint8Cell missing)) := by
        unfold decodePayloadValues
        rw [if_pos hraw]
      have hvalslen : ((payload ++
          List.replicate (dsize.toNat - payload.length) 0).map
            (decodeUint8Cell missing)).length = r.toNat * c.toNat := by
        rw [List.length_map, hindat, hsize]
      have hload : loadGrid attrs missing true payload =
          Except.ok (chunkList c.toNat ((payload ++
            List.replicate (dsize.toNat - payload.length) 0).map
              (decodeUint8Cell missing)),
            { attrs with nodataflag := some missing }) := by
        unfold loadGrid
        simp only [hds, hr, hc, Bool.not_true, hbuf, hdecode, if_neg hc0,
          if_pos hvalslen]
      refine ⟨chunkList c.toNat ((payload ++
          List.replicate (dsize.toNat - payload.length) 0).map
            (decodeUint8Cell missing)), ?_,
        chunkList_length c.toNat hc0 r.toNat _ hvalslen,
        chunkList_row_length c.toNat hc0 r.toNat _ hvalslen⟩
      unfold read_radolan_composite
      simp [hhdr, hparse, hload]
    · obtain ⟨hsize, hp⟩ := himp2 hraw
      obtain ⟨ws, hws, hwslen⟩ := toUint16LE_length
        (payload ++ List.replicate (dsize.toNat - payload.length) 0)
        (by rw [hindat, hsize]; omega)
      have hdecode : decodePayloadValues attrs missing c.toNat
          (payload ++ List.replicate (dsize.toNat - payload.length) 0) =
          Except.ok (ws.map (decodeUint16Cell missing p)) := by
        unfold decodePayloadValues
        rw [if_neg hraw, if_neg hrl, hp, hws]
      have hvalslen : (ws.map (decodeUint16Cell missing p)).length =
          r.toNat * c.toNat := by
        rw [List.length_map, hwslen, hindat, hsize]
        omega
      have hload : loadGrid attrs missing true payload =
          Except.ok (chunkList c.toNat (ws.map (decodeUint16Cell missing p)),
            { attrs with nodataflag := some missing }) := by
        unfold loadGrid
        simp only [hds, hr, hc, Bool.not_true, hbuf, hdecode, if_neg hc0,
          if_pos hvalslen]
      refine ⟨chunkList c.toNat (ws.map (decodeUint16Cell missing p)), ?_,
        chunkList_length c.toNat hc0 r.toNat _ hvalslen,
        chunkList_row_length c.toNat hc0 r.toNat _ hvalslen⟩
      unfold read_radolan_composite
      simp [hhdr, hparse, hload]

set_option maxRecDepth 8000 in
/-- C2 witness: a concrete 3-byte stream is one short of 8 declared bytes
and raises; the concrete truncated two-byte-path (RW-style) and
one-byte-path (RX-style) witness composites both decode with
`fillmissing = true` to a full 2×2 grid. -/
theorem c2_truncated_payload_witness :
    read_radolan_binary_array [0, 0, 0] 8 true =
      Except.error "IOError: Could not read enough data" ∧
    (∃ grid, read_radolan_composite witnessContentsTrunc (-9999) true true =
        Except.ok (some grid, witnessAttrs) ∧
      grid.length = 2 ∧ ∀ row ∈ grid, row.length = 2) ∧
    (∃ grid,
      read_radolan_composite rxWitnessContentsTrunc (-9999) true true =
        Except.ok (some grid, rxWitnessAttrs) ∧
      grid.length = 2 ∧ ∀ row ∈ grid, row.length = 2) :=
  ⟨c2_truncated_payload.1 [0, 0, 0] 8 (by decide),
   c2_truncated_payload.2 (witnessHeader.data.map Char.toNat) [0, 0, 0]
     (-9999) witnessAttrsParsed 8 2 2 (mkRat 1 10) (by decide) (by decide)
     (by decide) (by decide) (by decide) (by decide)
     (fun h => absurd h (by decide)) (fun _ => ⟨by decide, by decide⟩)
     (by decide) (by decide),
   c2_truncated_payload.2 (rxWitnessHeader.data.map Char.toNat) [0, 0]
     (-9999) rxWitnessAttrsParsed 4 2 2 (mkRat 1 10) (by decide) (by decide)
     (by decide) (by decide) (by decide) (by decide)
     (fun _ => by decide)
     (fun h => absurd (show "RX" ∈ rawByteProducts by decide) h)
     (by decide) (by decide)⟩

set_option maxRecDepth 8000 in
/-- C7 witness: the shape theorem applied to the fully decoded concrete
witness composite. -/
theorem c7_grid_shape_witness :
    ∃ r c, witnessAttrs.nrow = some r ∧ witnessAttrs.ncol = some c ∧
      ([[(0 : ℚ), 0], [0, 0]]).length = r.toNat ∧
      ∀ row ∈ [[(0 : ℚ), 0], [0, 0]], row.length = c.toNat :=
  c7_grid_shape witnessContentsFull (-9999) false [[0, 0], [0, 0]]
    witnessAttrs (by decide)

/-! ## Lazy header-only mode and the nodata flag (claim C6) -/

/-- No composite token handler touches the `nodataflag` attribute. -/
theorem applyTokenVal_nodataflag (header : List Char)
    (attrs : CompositeAttributes) (tok : String) (start : Nat)
    (v : List Char) (attrs' : CompositeAttributes)
    (h : applyTokenVal header attrs tok start v = Except.ok attrs') :
    attrs'.nodataflag = attrs.nodataflag := by
  unfold applyTokenVal at h
  by_cases h1 : tok = "BY"
  · rw [if_pos h1] at h
    rcases ht1 : tokenInt tok v with e | x <;> simp only [ht1] at h
    · exact Except.noConfusion h
    · injection h with h'; subst h'; rfl
  rw [if_neg h1] at h
  by_cases h2 : tok = "VS"
  · rw [if_pos h2] at h
    rcases ht2 : tokenInt tok v with e | x <;> simp only [ht2] at h
    · exact Except.noConfusion h
    · injection h with h'; subst h'; rfl
  rw [if_neg h2] at h
  by_cases h3 : tok = "SW"
  · rw [if_pos h3] at h
    injection h with h'; subst h'; rfl
  rw [if_neg h3] at h
  by_cases h4 : tok = "PR"
  · rw [if_pos h4] at h
    rcases ht4 : parsePrecision v with e | x <;> simp only [ht4] at h
    · exact Except.noConfusion h
    · injection h with h'; subst h'; rfl
  rw [if_neg h4] at h
  by_cases h5 : tok = "INT"
  · rw [if_pos h5] at h
    rcases ht5 : tokenInt tok v with e | x <;> simp only [ht5] at h
    · exact Except.noConfusion h
    · injection h with h'; subst h'; rfl
  rw [if_neg h5] at h
  by_cases h6 : tok = "U"
  · rw [if_pos h6] at h
    rcases ht6 : tokenInt tok v with e | x <;> simp only [ht6] at h
    · exact Except.noConfusion h
    · by_cases hu : x = 1
      · rw [if_pos hu] at h
        injection h with h'; subst h'; rfl
      · rw [if_neg hu] at h
        injection h with h'; subst h'; rfl
  rw [if_neg h6] at h
  by_cases h7 : tok = "GP"
  · rw [if_pos h7] at h
    rcases ht7 : parseGridDims tok ((splitOnChar 'x' (charTrim v)).map parseInt?) with e | x <;> simp only [ht7] at h
    · exact Except.noConfusion h
    · injection h with h'; subst h'; rfl
  rw [if_neg h7] at h
  by_cases h8 : tok = "BG"
  · rw [if_pos h8] at h
    rcases ht8 : parseGridDims tok [parseInt? (v.take (v.length / 2)), parseInt? (v.drop (v.length / 2))] with e | x <;> simp only [ht8] at h
    · exact Except.noConfusion h
    · injection h with h'; subst h'; rfl
  rw [if_neg h8] at h
  by_cases h9 : tok = "MS"
  · rw [if_pos h9] at h
    rcases ht9 : angleBracketList (header.drop start) with e | x <;> simp only [ht9] at h
    · exact Except.noConfusion h
    · injection h with h'; subst h'; rfl
  rw [if_neg h9] at h
  by_cases h10 : tok = "ST"
  · rw [if_pos h10] at h
    rcases ht10 : angleBracketList (header.drop start) with e | x <;> simp only [ht10] at h
    · exact Except.noConfusion h
    · injection h with h'; subst h'; rfl
  rw [if_neg h10] at h
  by_cases h11 : tok = "LV"
  · rw [if_pos h11] at h
    rcases ht11 : parseLevels tok (splitWhitespace v) with e | x <;> simp only [ht11] at h
    · exact Except.noConfusion h
    · injection h with h'; subst h'; rfl
  rw [if_neg h11] at h
  by_cases h12 : tok = "CS"
  · rw [if_pos h12] at h
    rcases ht12 : tokenInt tok v with e | x <;> simp only [ht12] at h
    · exact Except.noConfusion h
    · injection h with h'; subst h'; rfl
  rw [if_neg h12] at h
  by_cases h13 : tok = "MX"
  · rw [if_pos h13] at h
    rcases ht13 : tokenInt tok v with e | x <;> simp only [ht13] at h
    · exact Except.noConfusion h
    · injection h with h'; subst h'; rfl
  rw [if_neg h13] at h
  by_cases h14 : tok = "VV"
  · rw [if_pos h14] at h
    rcases ht14 : tokenInt tok v with e | x <;> simp only [ht14] at h
    · exact Except.noConfusion h
    · injection h with h'; subst h'; rfl
  rw [if_neg h14] at h
  by_cases h15 : tok = "MF"
  · rw [if_pos h15] at h
    rcases ht15 : tokenInt tok v with e | x <;> simp only [ht15] at h
    · exact Except.noConfusion h
    · injection h with h'; subst h'; rfl
  rw [if_neg h15] at h
  by_cases h16 : tok = "QN"
  · rw [if_pos h16] at h
    rcases ht16 : tokenInt tok v with e | x <;> simp only [ht16] at h
    · exact Except.noConfusion h
    · injection h with h'; subst h'; rfl
  rw [if_neg h16] at h
  by_cases h17 : tok = "VR"
  · rw [if_pos h17] at h
    injection h with h'; subst h'; rfl
  rw [if_neg h17] at h
  injection h with h'; subst h'; rfl

/-- No composite token handler touches the `nodataflag` attribute. -/
theorem applyToken_nodataflag (header : List Char)
    (attrs : CompositeAttributes) (tok : String) (span : Nat × Nat)
    (attrs' : CompositeAttributes)
    (h : applyToken header attrs tok span = Except.ok attrs') :
    attrs'.nodataflag = attrs.nodataflag :=
  applyTokenVal_nodataflag header attrs tok span.1 _ attrs' h

/-- No PZ token handler touches the `nodataflag` attribute. -/
theorem applyPZTokenVal_nodataflag (header : List Char)
    (attrs : CompositeAttributes) (tok : String)
    (v : List Char) (attrs' : CompositeAttributes)
    (h : applyPZTokenVal header attrs tok v = Except.ok attrs') :
    attrs'.nodataflag = attrs.nodataflag := by
  unfold applyPZTokenVal at h
  by_cases h1 : tok = "BY"
  · rw [if_pos h1] at h
    rcases ht1 : tokenInt tok v with e | x <;> simp only [ht1] at h
    · exact Except.noConfusion h
    · injection h with h'; subst h'; rfl
  rw [if_neg h1] at h
  by_cases h2 : tok = "VS"
  · rw [if_pos h2] at h
    rcases ht2 : tokenInt tok v with e | x <;> simp only [ht2] at h
    · exact Except.noConfusion h
    · injection h with h'; subst h'; rfl
  rw [if_neg h2] at h
  by_cases h3 : tok = "LV"
  · rw [if_pos h3] at h
    rcases ht3 : parseLevels tok (splitWhitespace v) with e | x <;> simp only [ht3] at h
    · exact Except.noConfusion h
    · injection h with h'; subst h'; rfl
  rw [if_neg h3] at h
  by_cases h4 : tok = "CO"
  · rw [if_pos h4] at h
    injection h with h'; subst h'; rfl
  rw [if_neg h4] at h
  by_cases h5 : tok = "CD"
  · rw [if_pos h5] at h
    injection h with h'; subst h'; rfl
  rw [if_neg h5] at h
  by_cases h6 : tok = "CS"
  · rw [if_pos h6] at h
    injection h with h'; subst h'; rfl
  rw [if_neg h6] at h
  by_cases h7 : tok = "MH"
  · rw [if_pos h7] at h
    rcases ht7 : tokenInt tok v with e | x <;> simp only [ht7] at h
    · exact Except.noConfusion h
    · injection h with h'; subst h'; rfl
  rw [if_neg h7] at h
  by_cases h8 : tok = "HI"
  · rw [if_pos h8] at h
    injection h with h'; subst h'; rfl
  rw [if_neg h8] at h
  by_cases h9 : tok = "CI"
  · rw [if_pos h9] at h
    rcases ht9 : parseRatPair tok (parseRat? (v.take (v.length / 2))) (parseRat? (v.drop (v.length / 2))) with e | x <;> simp only [ht9] at h
    · exact Except.noConfusion h
    · injection h with h'; subst h'; rfl
  rw [if_neg h9] at h
  by_cases h10 : tok = "CL"
  · rw [if_pos h10] at h
    rcases ht10 : ((splitWhitespace v).map parseInt?).allSome with _ | x <;> simp only [ht10] at h
    · exact Except.noConfusion h
    · injection h with h'; subst h'; rfl
  rw [if_neg h10] at h
  by_cases h11 : tok = "FL"
  · rw [if_pos h11] at h
    injection h with h'; subst h'; rfl
  rw [if_neg h11] at h
  by_cases h12 : tok = "MS"
  · rw [if_pos h12] at h
    rcases ht12 : parseNat? ((charTrim v).takeWhile isDigitChar) with _ | x <;> simp only [ht12] at h
    · exact Except.noConfusion h
    · injection h with h'; subst h'; rfl
  rw [if_neg h12] at h
  injection h with h'; subst h'; rfl

/-- No PZ token handler touches the `nodataflag` attribute. -/
theorem applyPZToken_nodataflag (header : List Char)
    (attrs : CompositeAttributes) (tok : String) (span : Nat × Nat)
    (attrs' : CompositeAttributes)
    (h : applyPZToken header attrs tok span = Except.ok attrs') :
    attrs'.nodataflag = attrs.nodataflag :=
  applyPZTokenVal_nodataflag header attrs tok _ attrs' h

/-- The composite token fold preserves the `nodataflag` attribute. -/
theorem applyTokens_nodataflag :
    ∀ (toks : List (String × Option (Nat × Nat))) (header : List Char)
      (attrs attrs' : CompositeAttributes),
      applyTokens header toks attrs = Except.ok attrs' →
      attrs'.nodataflag = attrs.nodataflag := by
  intro toks
  induction toks with
  | nil =>
    intro header attrs attrs' h
    injection h with h'; subst h'; rfl
  | cons t rest ih =>
    intro header attrs attrs' h
    match t with
    | (tok, none) =>
      exact ih header attrs attrs' h
    | (tok, some span) =>
      unfold applyTokens at h
      split at h
      · exact Except.noConfusion h
      · next a' ha' =>
        exact (ih header a' attrs' h).trans
          (applyToken_nodataflag header attrs tok span a' ha')

/-- The PZ token fold preserves the `nodataflag` attribute. -/
theorem applyPZTokens_nodataflag :
    ∀ (toks : List (String × Option (Nat × Nat))) (header : List Char)
      (attrs attrs' : CompositeAttributes),
      applyPZTokens header toks attrs = Except.ok attrs' →
      attrs'.nodataflag = attrs.nodataflag := by
  intro toks
  induction toks with
  | nil =>
    intro header attrs attrs' h
    injection h with h'; subst h'; rfl
  | cons t rest ih =>
    intro header attrs attrs' h
    match t with
    | (tok, none) =>
      exact ih header attrs attrs' h
    | (tok, some span) =>
      unfold applyPZTokens at h
      split at h
      · exact Except.noConfusion h
      · next a' ha' =>
        exact (ih header a' attrs' h).trans
          (applyPZToken_nodataflag header attrs tok span a' ha')

/-- The header parser never populates the `nodataflag` attribute. -/
theorem parse_nodataflag_none (header : List Char)
    (attrs : CompositeAttributes)
    (h : parse_dwd_composite_header header = Except.ok attrs) :
    attrs.nodataflag = none := by
  unfold parse_dwd_composite_header at h
  split at h
  · exact Except.noConfusion h
  · split at h
    · exact Except.noConfusion h
    · split at h
      · exact (applyPZTokens_nodataflag _ _ _ _ h).trans rfl
      · exact (applyTokens_nodataflag _ _ _ _ h).trans rfl

/-- Decoding always attaches the `missing` sentinel as `nodataflag`. -/
theorem loadGrid_nodataflag (attrs : CompositeAttributes) (missing : Int)
    (fm : Bool) (rest : List Nat) (grid : List (List ℚ))
    (attrs' : CompositeAttributes)
    (h : loadGrid attrs missing fm rest = Except.ok (grid, attrs')) :
    attrs'.nodataflag = some missing := by
  unfold loadGrid at h
  repeat' split at h
  all_goals try exact Except.noConfusion h
  injection h with h'
  injection h' with hg ha
  subst ha; rfl

/-- C6: with `loaddata = false` the decode entry point returns `(none,
attrs)` where the attributes carry no `nodataflag` key; with
`loaddata = true` a successful decode returns a grid and attributes whose
`nodataflag` key holds the `missing` sentinel. -/
theorem c6_loaddata_nodataflag :
    (∀ (contents : List Nat) (missing : Int) (fm : Bool)
      (d : Option (List (List ℚ))) (attrs : CompositeAttributes),
      read_radolan_composite contents missing false fm =
        Except.ok (d, attrs) →
      d = none ∧ attrs.nodataflag = none) ∧
    (∀ (contents : List Nat) (missing : Int) (fm : Bool)
      (d : Option (List (List ℚ))) (attrs : CompositeAttributes),
      read_radolan_composite contents missing true fm =
        Except.ok (d, attrs) →
      (∃ g, d = some g) ∧ attrs.nodataflag = some missing) := by
  constructor
  · intro contents missing fm d attrs h
    unfold read_radolan_composite at h
    repeat' split at h
    all_goals try exact Except.noConfusion h
    all_goals try exact Bool.noConfusion ‹false = true›
    all_goals
      injection h with h'
      injection h' with hd ha
      subst hd; subst ha
      exact ⟨rfl, parse_nodataflag_none _ _ (by assumption)⟩
  · intro contents missing fm d attrs h
    unfold read_radolan_composite at h
    repeat' split at h
    all_goals try exact Except.noConfusion h
    all_goals try exact absurd rfl ‹¬true = true›
    all_goals
      injection h with h'
      injection h' with hd ha
      subst hd; subst ha
      exact ⟨⟨_, rfl⟩, loadGrid_nodataflag _ missing fm _ _ _ (by assumption)⟩

set_option maxRecDepth 8000 in
/-- C6 witness: the concrete witness composite in header-only mode has no
nodata flag; fully decoded it carries the default `-9999` sentinel. -/
theorem c6_loaddata_nodataflag_witness :
    ((none : Option (List (List ℚ))) = none ∧
      witnessAttrsParsed.nodataflag = none) ∧
    ((∃ g, (some [[(0 : ℚ), 0], [0, 0]] : Option (List (List ℚ))) = some g) ∧
      witnessAttrs.nodataflag = some (-9999)) :=
  ⟨c6_loaddata_nodataflag.1 witnessContentsFull (-9999) false none
      witnessAttrsParsed (by decide),
   c6_loaddata_nodataflag.2 witnessContentsFull (-9999) false
      (some [[0, 0], [0, 0]]) witnessAttrs (by decide)⟩

/-! ## Deterministic decoding (claim C8) -/

/-- C8: decoding is deterministic: two decode calls over the same file
contents with the same options (each on a fresh stream, embedded as the
same byte list) return bit-identical grids and equal metadata records. -/
theorem c8_deterministic_decode (contents₁ contents₂ : List Nat)
    (missing : Int) (loaddata fillmissing : Bool)
    (d₁ d₂ : Option (List (List ℚ))) (a₁ a₂ : CompositeAttributes)
    (hsame : contents₁ = contents₂)
    (h₁ : read_radolan_composite contents₁ missing loaddata fillmissing =
      Except.ok (d₁, a₁))
    (h₂ : read_radolan_composite contents₂ missing loaddata fillmissing =
      Except.ok (d₂, a₂)) :
    d₁ = d₂ ∧ a₁ = a₂ := by
  subst hsame
  rw [h₁] at h₂
  injection h₂ with h'
  injection h' with hd ha
  exact ⟨hd, ha⟩

set_option maxRecDepth 8000 in
/-- C8 witness: two runs over the concrete witness stream agree. -/
theorem c8_deterministic_decode_witness :
    (some [[(0 : ℚ), 0], [0, 0]] : Option (List (List ℚ))) =
      some [[(0 : ℚ), 0], [0, 0]] ∧ witnessAttrs = witnessAttrs :=
  c8_deterministic_decode witnessContentsFull witnessContentsFull (-9999)
    true false (some [[0, 0], [0, 0]]) (some [[0, 0], [0, 0]])
    witnessAttrs witnessAttrs rfl (by decide) (by decide)

/-! ## Optional module stubs (`wradlib/util.py`, claim C9) -/

/-- A loaded Python module object: its name and attribute table. -/
structure PyModule where
  modname : String
  attrs : String → Option String

/-- Result of `import_optional`: the module object itself, or an
`OptionalModuleStub` carrying the module name and the dependency group.
`OptionalModuleStub.__init__` stores `"optional"` as the group regardless
of its `dep` argument (util.py line 61). -/
inductive ImportResult where
  | module (m : PyModule)
  | stub (modname dep : String)

/-- `import_optional` from `wradlib/util.py`: the importable-modules
environment stands for `importlib.import_module`, which returns the module
object or raises `ImportError`; on the latter an `OptionalModuleStub` is
returned instead and no exception escapes. -/
def import_optional (env : String → Option PyModule) (modname : String)
    (dep : Option String) : ImportResult :=
  match env modname with
  | some m => ImportResult.module m
  | none => ImportResult.stub modname "optional"

/-- Fixed leading text of the stub error message. -/
def stubMsgP1 : String := "Module '"

/-- Text between the module name and the attribute name in the stub error
message. -/
def stubMsgP2 : String :=
  "' is not installed.\n\nYou tried to access function/module/attribute '"

/-- Text between the attribute name and the second module name in the stub
error message. -/
def stubMsgP3 : String := "'\nfrom module '"

/-- Trailing text of the stub error message, holding the dependency
link. -/
def stubMsgP4 (dep : String) : String :=
  "'.\nThis module is optional right now in wradlib.\nYou need to separately install this dependency.\nPlease refer to https://docs.wradlib.org/en/stable/installation.html#"
    ++ dep ++ "-dependencies\nfor further instructions."

/-- Message of the `AttributeError` raised by
`OptionalModuleStub.__getattr__` (util.py lines 63–75). -/
def stubMessage (name dep attrname : String) : String :=
  stubMsgP1 ++ name ++ stubMsgP2 ++ attrname ++ stubMsgP3 ++ name ++
    stubMsgP4 dep

/-- Attribute access on an import result: a module yields its attribute
(or an ordinary `AttributeError`), a stub raises the `AttributeError`
built by `OptionalModuleStub.__getattr__`. -/
def getattrImported : ImportResult → String → Except String String
  | ImportResult.module m, a =>
    match m.attrs a with
    | some val => Except.ok val
    | none => Except.error ("AttributeError: " ++ a)
  | ImportResult.stub n d, a => Except.error (stubMessage n d a)

/-- `String.append` concatenates the underlying character lists. -/
theorem string_data_append (s t : String) :
    (s ++ t).data = s.data ++ t.data := by
  cases s; cases t; rfl

/-- C9: for a module name that cannot be imported, `import_optional`
returns an `OptionalModuleStub` without raising, and every attribute
access on that stub raises an `AttributeError` whose message names both
the module and the accessed attribute; for an importable module the module
object itself is returned. -/
theorem c9_import_optional (env : String → Option PyModule)
    (modname : String) (dep : Option String) :
    (env modname = none →
      (import_optional env modname dep) =
        ImportResult.stub modname "optional" ∧
      ∀ attrname : String, ∃ msg : String,
        getattrImported (import_optional env modname dep) attrname =
          Except.error msg ∧
        modname.data <:+: msg.data ∧ attrname.data <:+: msg.data) ∧
    (∀ m : PyModule, env modname = some m →
      (import_optional env modname dep) = ImportResult.module m) := by
  constructor
  · intro hnone
    have hstub : import_optional env modname dep =
        ImportResult.stub modname "optional" := by
      unfold import_optional
      rw [hnone]
    refine ⟨hstub, fun attrname => ?_⟩
    refine ⟨stubMessage modname "optional" attrname, ?_, ?_, ?_⟩
    · rw [hstub]; rfl
    · exact ⟨stubMsgP1.data,
        stubMsgP2.data ++ attrname.data ++ stubMsgP3.data ++ modname.data ++
          (stubMsgP4 "optional").data,
        by simp [stubMessage, string_data_append, List.append_assoc]⟩
    · exact ⟨stubMsgP1.data ++ modname.data ++ stubMsgP2.data,
        stubMsgP3.data ++ modname.data ++ (stubMsgP4 "optional").data,
        by simp [stubMessage, string_data_append, List.append_assoc]⟩
  · intro m hm
    unfold import_optional
    rw [hm]

/-- C9 witness: a non-importable module yields a stub whose attribute
access names module and attribute; an importable module is returned
itself. -/
theorem c9_import_optional_witness :
    (import_optional (fun _ => none) "nonexistentmodule" none =
      ImportResult.stub "nonexistentmodule" "optional") ∧
    (∃ msg, getattrImported (import_optional (fun _ => none)
        "nonexistentmodule" none) "log10" = Except.error msg ∧
      "nonexistentmodule".data <:+: msg.data ∧ "log10".data <:+: msg.data) ∧
    (import_optional
      (fun n => if n = "math" then some ⟨"math", fun _ => none⟩ else none)
      "math" none) = ImportResult.module ⟨"math", fun _ => none⟩ :=
  ⟨((c9_import_optional (fun _ => none) "nonexistentmodule" none).1 rfl).1,
   ((c9_import_optional (fun _ => none) "nonexistentmodule" none).1
      rfl).2 "log10",
   (c9_import_optional
      (fun n => if n = "math" then some ⟨"math", fun _ => none⟩ else none)
      "math" none).2 ⟨"math", fun _ => none⟩ (by simp)⟩

/-! ## despeckle (`wradlib/util.py`, claim C10) -/

/-- `_pad_array` from `wradlib/util.py` with `mode="constant"`: numpy pads
both ends of the last dimension with the constant 0 (a non-NaN cell; the
source comment says "pad with NaN" but `np.pad(..., mode="constant")`
pads with zeroes).  Cells are `Option ℚ`: `none` is NaN. -/
def _pad_array (data : List (Option ℚ)) (pad : Nat) : List (Option ℚ) :=
  List.replicate pad (some 0) ++ data ++ List.replicate pad (some 0)

/-- `_rolling_dim` from `wradlib/util.py`: consecutive windows of the
given length along the last dimension (strided view; window `i` holds
`data[i..i+window-1]`). -/
def _rolling_dim (data : List (Option ℚ)) (window : Nat) :
    List (List (Option ℚ)) :=
  (List.range (data.length - window + 1)).map
    (fun i => (data.drop i).take window)

/-- Speckle mask of `despeckle`: after padding with `n / 2` constant cells
on each side and rolling a window of the original length, cell `j` is
speckle when exactly `n - 1` of the `n` rolled rows are NaN at column
`j`. -/
def despeckleMask (data : List (Option ℚ)) (n : Nat) : List Bool :=
  (List.range data.length).map (fun j =>
    ((_rolling_dim (_pad_array data (n / 2)) data.length).countP
      (fun row => (row.getD j (some 0)).isNone)) == n - 1)

/-- Array returned by `despeckle`: speckle cells set to NaN. -/
def despeckleResult (data : List (Option ℚ)) (n : Nat) : List (Option ℚ) :=
  List.zipWith (fun v b => if b then none else v) data (despeckleMask data n)

/-- `despeckle` from `wradlib/util.py`, with the caller's array state made
explicit: the first component is the returned array or the raised
`ValueError`, the second is the caller's array after the call
(`copy=False`, the default, mutates it in place; `copy=True` leaves it
untouched; a bad window size raises before touching it). -/
def despeckle (data : List (Option ℚ)) (n : Nat) (copy : Bool) :
    Except String (List (Option ℚ)) × List (Option ℚ) :=
  if n ≠ 3 ∧ n ≠ 5 then
    (Except.error "Window size n for function despeckle must be 3 or 5.",
      data)
  else
    (Except.ok (despeckleResult data n),
      if copy then data else despeckleResult data n)

/-- NaN test of cell `k` of the unpadded array, with integer index:
out-of-range cells stand for the constant padding and are not NaN. -/
def nanAtIdx (data : List (Option ℚ)) (k : Int) : Bool :=
  if 0 ≤ k ∧ k < data.length then (data.getD k.toNat (some 0)).isNone
  else false

/-- Number of NaNs among the `n` cells of the window centred at `j`. -/
def windowNanCount (data : List (Option ℚ)) (n : Nat) (j : Nat) : Nat :=
  (List.range n).countP
    (fun (i : Nat) =>
      nanAtIdx data ((j : Int) + (i : Int) - ((n / 2 : Nat) : Int)))

/-- Pointwise description of `zipWith` through optional indexing. -/
theorem zipWith_getElem?' {α β γ : Type} (f : α → β → γ) :
    ∀ (as : List α) (bs : List β) (j : Nat),
      (List.zipWith f as bs)[j]? =
        match as[j]?, bs[j]? with
        | some a, some b => some (f a b)
        | _, _ => none := by
  intro as
  induction as with
  | nil => intro bs j; cases bs <;> cases j <;> simp
  | cons a as ih =>
    intro bs j
    cases bs with
    | nil => cases j <;> simp
    | cons b bs =>
      cases j with
      | zero => simp
      | succ j => simpa using ih bs j

/-- `countP` over a mapped list counts the composed predicate. -/
theorem countP_map' {α β : Type} (p : β → Bool) (f : α → β) :
    ∀ l : List α, (l.map f).countP p = l.countP (fun a => p (f a)) := by
  intro l
  induction l with
  | nil => rfl
  | cons a l ih => by_cases h : p (f a) <;> simp [List.countP_cons, ih, h]

/-- `countP` respects pointwise equal predicates. -/
theorem countP_congr' {α : Type} (p q : α → Bool) :
    ∀ l : List α, (∀ a ∈ l, p a = q a) → l.countP p = l.countP q := by
  intro l
  induction l with
  | nil => intro _; rfl
  | cons a l ih =>
    intro h
    rw [List.countP_cons, List.countP_cons, h a (List.mem_cons_self a l),
      ih (fun b hb => h b (List.mem_cons_of_mem a hb))]

/-- Cells of the padded array: constant `0` on both pads, the original
cells in between. -/
theorem padded_getElem? (data : List (Option ℚ)) (p k : Nat) :
    (_pad_array data p)[k]? =
      if k < p then some (some 0)
      else if k < p + data.length then data[k - p]?
      else if k < p + data.length + p then some (some 0)
      else none := by
  unfold _pad_array
  rw [List.getElem?_append, List.getElem?_append]
  simp only [List.length_append, List.length_replicate,
    List.getElem?_replicate]
  split_ifs <;>
    first
    | rfl
    | (exfalso; omega)

/-- The rolled-window speckle mask at cell `j` tests whether exactly
`n - 1` of the `n` cells of the centred window are NaN. -/
theorem despeckleMask_getElem (data : List (Option ℚ)) (n : Nat)
    (hn : n = 3 ∨ n = 5) (j : Nat) (hj : j < data.length) :
    (despeckleMask data n)[j]? =
      some (windowNanCount data n j == n - 1) := by
  have hodd : 2 * (n / 2) + 1 = n := by rcases hn with rfl | rfl <;> rfl
  unfold despeckleMask
  rw [List.getElem?_map, List.getElem?_range hj]
  simp only [Option.map_some']
  congr 2
  unfold _rolling_dim windowNanCount
  rw [countP_map']
  have hlen : (_pad_array data (n / 2)).length - data.length + 1 = n := by
    simp [_pad_array]
    omega
  rw [hlen]
  apply countP_congr'
  intro i hi
  have hi' : i < n := List.mem_range.mp hi
  have hjL : j < data.length := hj
  rw [List.getD_eq_getElem?_getD, List.getElem?_take]
  rw [if_pos hjL]
  rw [List.getElem?_drop, padded_getElem?]
  unfold nanAtIdx
  by_cases h1 : i + j < n / 2
  · rw [if_pos h1]
    rw [if_neg (by omega : ¬(0 ≤ (j : Int) + (i : Int) - ((n / 2 : Nat) : Int) ∧
      (j : Int) + (i : Int) - ((n / 2 : Nat) : Int) < (data.length : Int)))]
    rfl
  · rw [if_neg h1]
    by_cases h2 : i + j < n / 2 + data.length
    · rw [if_pos h2]
      rw [if_pos (by constructor <;> [omega; omega] :
        0 ≤ (j : Int) + (i : Int) - ((n / 2 : Nat) : Int) ∧
        (j : Int) + (i : Int) - ((n / 2 : Nat) : Int) < (data.length : Int))]
      rw [List.getD_eq_getElem?_getD]
      have hk : ((j : Int) + (i : Int) - ((n / 2 : Nat) : Int)).toNat =
          i + j - n / 2 := by omega
      rw [hk]
    · rw [if_neg h2]
      rw [if_pos (by omega : i + j < n / 2 + data.length + n / 2)]
      rw [if_neg (by omega : ¬(0 ≤ (j : Int) + (i : Int) - ((n / 2 : Nat) : Int) ∧
        (j : Int) + (i : Int) - ((n / 2 : Nat) : Int) < (data.length : Int)))]
      rfl

/-- `despeckle` preserves the array length. -/
theorem despeckleResult_length (data : List (Option ℚ)) (n : Nat) :
    (despeckleResult data n).length = data.length := by
  simp [despeckleResult, despeckleMask]

/-- Cell `j` of the despeckled array: NaN when the centred window holds
exactly `n - 1` NaNs, the original cell otherwise. -/
theorem despeckleResult_getD (data : List (Option ℚ)) (n : Nat)
    (hn : n = 3 ∨ n = 5) (j : Nat) (hj : j < data.length) :
    (despeckleResult data n).getD j (some 0) =
      if windowNanCount data n j = n - 1 then none
      else data.getD j (some 0) := by
  unfold despeckleResult
  rw [List.getD_eq_getElem?_getD,
    zipWith_getElem?' _ data (despeckleMask data n) j,
    despeckleMask_getElem data n hn j hj,
    List.getElem?_eq_getElem hj]
  by_cases hw : windowNanCount data n j = n - 1
  · simp [hw]
  · simp [hw, List.getD_eq_getElem?_getD, List.getElem?_eq_getElem hj]

/-- C10: for any input array, `despeckle` with a window size outside
{3, 5} raises a `ValueError` before touching the input; with a valid
window size and `copy = true` it returns its result leaving the input
bit-identical, whereas with `copy = false` (the default) the input array
itself ends up with exactly its speckle cells (cells whose centred window
holds exactly `n - 1` NaNs) set to NaN. -/
theorem c10_despeckle_frame (data : List (Option ℚ)) (n : Nat)
    (copy : Bool) :
    ((n ≠ 3 ∧ n ≠ 5) → despeckle data n copy =
      (Except.error "Window size n for function despeckle must be 3 or 5.",
        data)) ∧
    ((n = 3 ∨ n = 5) →
      despeckle data n true = (Except.ok (despeckleResult data n), data) ∧
      despeckle data n false =
        (Except.ok (despeckleResult data n), despeckleResult data n) ∧
      (despeckleResult data n).length = data.length ∧
      ∀ j, j < data.length →
        (despeckleResult data n).getD j (some 0) =
          if windowNanCount data n j = n - 1 then none
          else data.getD j (some 0)) := by
  constructor
  · intro hbad
    unfold despeckle
    rw [if_pos hbad]
  · intro hn
    have hok : ¬(n ≠ 3 ∧ n ≠ 5) := by rcases hn with rfl | rfl <;> simp
    exact ⟨by unfold despeckle; rw [if_neg hok]; rfl,
      by unfold despeckle; rw [if_neg hok]; rfl,
      despeckleResult_length data n,
      fun j hj => despeckleResult_getD data n hn j hj⟩

/-- C10 witness: on a concrete five-cell array, `n = 4` raises with the
input untouched, `n = 3` despeckles with and without copying, and the
isolated cell between two NaNs is set to NaN. -/
theorem c10_despeckle_frame_witness :
    despeckle [some 1, none, some 2, none, some 5] 4 true =
      (Except.error "Window size n for function despeckle must be 3 or 5.",
        [some 1, none, some 2, none, some 5]) ∧
    despeckle [some 1, none, some 2, none, some 5] 3 true =
      (Except.ok [some 1, none, none, none, some 5],
        [some 1, none, some 2, none, some 5]) ∧
    despeckle [some 1, none, some 2, none, some 5] 3 false =
      (Except.ok [some 1, none, none, none, some 5],
        [some 1, none, none, none, some 5]) ∧
    (despeckleResult [some 1, none, some 2, none, some 5] 3).getD 2
      (some 0) = none := by
  have h := (c10_despeckle_frame [some 1, none, some 2, none, some 5] 3
    true).2 (Or.inl rfl)
  have hres : despeckleResult [some 1, none, some 2, none, some 5] 3 =
      [some 1, none, none, none, some 5] := by decide
  have h' := (c10_despeckle_frame [some 1, none, some 2, none, some 5] 3
    false).2 (Or.inl rfl)
  refine ⟨(c10_despeckle_frame [some 1, none, some 2, none, some 5] 4
      true).1 (by decide), ?_, ?_, ?_⟩
  · rw [hres] at h
    exact h.1
  · rw [hres] at h'
    exact h'.2.1
  · exact (h.2.2.2 2 (by decide)).trans (if_pos (by decide))
